import Mathlib

/-!
Verification development for the notification-service event pipeline.

The definitions below are a shallow embedding of the TypeScript sources:
the stream-message parser and acknowledgement logic of
`src/consumers/OrderEventConsumer.ts`, the order resolver
`OrderService.getOrderInfo` of `src/services/OrderService.ts`, the health
gate `OrderServiceHealthChecker.isOrderServiceHealthy` of
`src/services/OrderServiceHealthChecker.ts`, and the dispatch engine
`NotificationEngine.processNotificationEvent` of
`src/services/NotificationEngine.ts`.

External effects (Redis reads, HTTP calls, strategy sends, wall clock) are
passed in as explicit environment values; logging and real-time delays are
not modelled.  Where the source throws, the embedding returns a sum type;
where the source performs an observable call (cache read, API attempt),
the embedding records a trace step.
-/

namespace NotificationService

/-- Order lifecycle event types (`NotificationEventType` enum in `src/types/index.ts`). -/
inductive NotificationEventType where
  | orderCreated
  | orderPaid
  | orderConfirmed
  | orderPreparing
  | orderReadyForPickup
  | orderDelivering
  | orderCompleted
  | orderCancelled
deriving DecidableEq, Repr

/-- Wire names of the event enum values; models the cast plus
`Object.values(NotificationEventType).includes(event)` check of `parseMessage`:
the result is `some` exactly for the eight recognized enum strings. -/
def eventOfString : String → Option NotificationEventType
  | "order_created" => some .orderCreated
  | "order_paid" => some .orderPaid
  | "order_confirmed" => some .orderConfirmed
  | "order_preparing" => some .orderPreparing
  | "order_ready_for_pickup" => some .orderReadyForPickup
  | "order_delivering" => some .orderDelivering
  | "order_completed" => some .orderCompleted
  | "order_cancelled" => some .orderCancelled
  | _ => none

/-- Notification channel types (`ChannelType` enum in `src/types/index.ts`).
`noConfig` is the marker value `ChannelType.NO_CONFIG` used for
message-level audit records. -/
inductive ChannelType where
  | wechatMp
  | wecomBot
  | cloudSpeaker
  | noConfig
deriving DecidableEq, Repr

/-- Audit statuses (`NotificationStatus` enum in `src/types/index.ts`). -/
inductive NotificationStatus where
  | pending
  | success
  | failed
  | retrying
  | skipped
deriving DecidableEq, Repr

/-- Order types (`OrderType` enum in `src/types/index.ts`). -/
inductive OrderType where
  | dineIn
  | pickup
  | delivery
deriving DecidableEq, Repr

/-- Denormalized order snapshot (`OrderInfo` in `src/types/index.ts`).
The resolver inspects only `order_id` (JS truthiness) and `store_code`
(equality with the requested store); `payload` stands for the remaining
read-only snapshot fields (amounts, contact info, items, store, timestamps),
which no claim inspects individually but whose identity matters for the
idempotence claim. -/
structure OrderInfo where
  order_id : String
  store_code : String
  order_type : OrderType
  payload : Nat
deriving DecidableEq, Repr

/-- JS `WhiteSpace` and `LineTerminator` characters stripped by
`Number(...)`: tab, LF, VT, FF, CR, space, NBSP, BOM, the Unicode space
separators, and the line/paragraph separators. -/
def isJsWhitespace (c : Char) : Bool :=
  let n := c.toNat
  n = 9 || n = 10 || n = 11 || n = 12 || n = 13 || n = 32 || n = 160 ||
  n = 5760 || (8192 ≤ n && n ≤ 8202) || n = 8232 || n = 8233 || n = 8239 ||
  n = 8287 || n = 12288 || n = 65279

/-- Strip leading and trailing JS whitespace. -/
def trimJs (l : List Char) : List Char :=
  ((l.dropWhile isJsWhitespace).reverse.dropWhile isJsWhitespace).reverse

/-- Consume a maximal run of decimal digits, returning their value, how many
there were, and the rest of the input. -/
def takeDigitsAux (acc count : Nat) : List Char → Nat × Nat × List Char
  | [] => (acc, count, [])
  | c :: rest =>
    if c.isDigit then takeDigitsAux (10 * acc + (c.toNat - 48)) (count + 1) rest
    else (acc, count, c :: rest)

/-- A non-empty all-digit run filling the whole input, as a natural number. -/
def expNat (l : List Char) : Option Nat :=
  let (v, n, r) := takeDigitsAux 0 0 l
  if n = 0 then none
  else if r.isEmpty then some v else none

/-- Parse the optional exponent suffix `(e|E) [+|-] digits` of a decimal
literal; the suffix must reach the end of the input, and an empty input
means exponent 0. -/
def parseExpSuffix : List Char → Option Int
  | [] => some 0
  | c :: rest =>
    if c = 'e' || c = 'E' then
      match rest with
      | '+' :: r => (expNat r).map fun v => (v : Int)
      | '-' :: r => (expNat r).map fun v => -(v : Int)
      | r => (expNat r).map fun v => (v : Int)
    else none

/-- An unsigned JS numeric literal value: `Infinity`, or a finite decimal
`mantissa * 10 ^ exp10`. -/
inductive JsUnsigned where
  | inf
  | fin (mantissa : Nat) (exp10 : Int)
deriving DecidableEq, Repr

/-- Parse an unsigned `StrUnsignedDecimalLiteral`: the string `Infinity`, or
`digits [. digits] [exp]` / `. digits [exp]` with at least one mantissa
digit. -/
def parseUnsignedDec (l : List Char) : Option JsUnsigned :=
  if l = "Infinity".data then some .inf
  else
    let (ip, ipn, r1) := takeDigitsAux 0 0 l
    match r1 with
    | '.' :: r2 =>
      let (fp, fpn, r3) := takeDigitsAux 0 0 r2
      if ipn = 0 && fpn = 0 then none
      else (parseExpSuffix r3).map fun e => .fin (ip * 10 ^ fpn + fp) (e - (fpn : Int))
    | _ =>
      if ipn = 0 then none
      else (parseExpSuffix r1).map fun e => .fin ip e

/-- Value of one hexadecimal digit. -/
def hexDigitVal (c : Char) : Option Nat :=
  if c.isDigit then some (c.toNat - 48)
  else if 'a' ≤ c && c ≤ 'f' then some (c.toNat - 87)
  else if 'A' ≤ c && c ≤ 'F' then some (c.toNat - 55)
  else none

/-- Value of one octal digit. -/
def octDigitVal (c : Char) : Option Nat :=
  if '0' ≤ c && c ≤ '7' then some (c.toNat - 48) else none

/-- Value of one binary digit. -/
def binDigitVal (c : Char) : Option Nat :=
  if c = '0' then some 0 else if c = '1' then some 1 else none

/-- Accumulate digits of the given radix; any invalid character fails. -/
def radixValAux (radix : Nat) (dv : Char → Option Nat) (acc : Nat) :
    List Char → Option Nat
  | [] => some acc
  | c :: rest =>
    match dv c with
    | some d => radixValAux radix dv (radix * acc + d) rest
    | none => none

/-- A non-empty digit run of the given radix filling the whole input. -/
def radixVal (radix : Nat) (dv : Char → Option Nat) : List Char → Option Nat
  | [] => none
  | l => radixValAux radix dv 0 l

/-- A JS number value other than `NaN`: a finite value `mantissa * 10 ^ exp10`
(the exact value denoted by the literal; rounding to the nearest double is
not modelled) or one of the infinities. -/
inductive JsNumber where
  | finite (mantissa : Int) (exp10 : Int)
  | posInf
  | negInf
deriving DecidableEq, Repr

/-- JS `Number(s)` on a string: trim whitespace (empty ⇒ 0); an optional
sign followed by a decimal literal or `Infinity`; an unsigned `0x`/`0o`/`0b`
radix literal; everything else is `NaN` (`none`). -/
def jsNumber (s : String) : Option JsNumber :=
  match trimJs s.data with
  | [] => some (.finite 0 0)
  | '+' :: rest =>
    (parseUnsignedDec rest).map fun u =>
      match u with
      | .inf => .posInf
      | .fin m e => .finite (m : Int) e
  | '-' :: rest =>
    (parseUnsignedDec rest).map fun u =>
      match u with
      | .inf => .negInf
      | .fin m e => .finite (-(m : Int)) e
  | '0' :: c :: rest =>
    if c = 'x' || c = 'X' then
      (radixVal 16 hexDigitVal rest).map fun v => .finite (v : Int) 0
    else if c = 'o' || c = 'O' then
      (radixVal 8 octDigitVal rest).map fun v => .finite (v : Int) 0
    else if c = 'b' || c = 'B' then
      (radixVal 2 binDigitVal rest).map fun v => .finite (v : Int) 0
    else
      (parseUnsignedDec ('0' :: c :: rest)).map fun u =>
        match u with
        | .inf => .posInf
        | .fin m e => .finite (m : Int) e
  | l =>
    (parseUnsignedDec l).map fun u =>
      match u with
      | .inf => .posInf
      | .fin m e => .finite (m : Int) e

/-- A parsed stream message (`StreamMessage` in `src/types/index.ts`).
`token` is `Option` because `parseMessage` maps an absent or empty token
field to `undefined`; `timestamp` is the (non-`NaN`) JS number produced by
`Number(...)`. -/
structure StreamMessage where
  orderId : String
  token : Option String
  event : NotificationEventType
  storeCode : String
  timestamp : JsNumber
deriving DecidableEq, Repr

/-- Collect the flat Redis stream field array `[k1, v1, k2, v2, ...]` into
key/value pairs, as the `for (let i = 0; i < fields.length; i += 2)` loop does. -/
def fieldPairs : List String → List (String × String)
  | k :: v :: rest => (k, v) :: fieldPairs rest
  | _ => []

/-- JS object lookup after sequential assignment `obj[k] = v`: the LAST
binding of a key wins. -/
def lookupLast (pairs : List (String × String)) (k : String) : Option String :=
  match pairs with
  | [] => none
  | (k0, v0) :: rest =>
    match lookupLast rest k with
    | some v => some v
    | none => if k0 = k then some v0 else none

/-- Models the JS expression `value ? String(value) : undefined` on a string
field: a missing key and an empty string both become `undefined`. -/
def truthyField (v : Option String) : Option String :=
  v.bind fun s => if s = "" then none else some s

/-- Models `messageObject.timestamp ? Number(messageObject.timestamp) : undefined`
followed by the `isNaN` guard: `none` stands for `undefined` (absent or
empty field) as well as `NaN`. -/
def numericField (v : Option String) : Option JsNumber :=
  (truthyField v).bind jsNumber

/-- `OrderEventConsumer.parseMessage` (src/consumers/OrderEventConsumer.ts,
lines 387-423): reject an odd-length field array; build the message object;
require truthy `orderId` and `storeCode`, a numeric `timestamp`, and a truthy
`event` that is a recognized enum value; `token` is optional and an empty
token becomes `undefined`. -/
def parseMessage (fields : List String) : Option StreamMessage :=
  if fields.length % 2 ≠ 0 then none
  else
    match truthyField (lookupLast (fieldPairs fields) "orderId"),
        truthyField (lookupLast (fieldPairs fields) "storeCode"),
        numericField (lookupLast (fieldPairs fields) "timestamp"),
        lookupLast (fieldPairs fields) "event" with
    | some oid, some sc, some ts, some ev =>
      if ev = "" then none
      else
        match eventOfString ev with
        | some e =>
          some { orderId := oid,
                 token := truthyField (lookupLast (fieldPairs fields) "token"),
                 event := e, storeCode := sc, timestamp := ts }
        | none => none
    | _, _, _, _ => none

/-- Which throw site of the resolver (or the engine's wrapper) produced a
`CriticalOrderInfoError`; stands for the distinct message texts of the source. -/
inductive CriticalReason where
  | staleInitial
  | staleRetry
  | unhealthy
  | allAttemptsFailed
  | loopFallthrough
  | wrappedUnknown
deriving DecidableEq, Repr

/-- The underlying cause carried in `originalError`: an error thrown by
`_fetchOrderInfoFromApiOnce` (5xx / network / timeout), the
`CriticalOrderInfoError` thrown for a null API result and caught by the retry
loop's own `catch`, or a non-critical error wrapped by the engine. -/
inductive ErrorCause where
  | apiRaise (code : Nat)
  | nullCritical (attempt : Nat)
  | unknownError (msg : String)
deriving DecidableEq, Repr

/-- The `CriticalOrderInfoError` class (src/types/index.ts and
src/services/OrderService.ts): carries `attemptsMade` and the last
underlying error. -/
structure CriticalOrderInfoError where
  attemptsMade : Nat
  originalError : Option ErrorCause
  reason : CriticalReason
deriving DecidableEq, Repr

/-- An exception escaping `NotificationEngine.processNotificationEvent` as the
consumer worker sees it: either the distinguished `CriticalOrderInfoError` or
any other unexpected exception. -/
inductive EngineError where
  | critical (e : CriticalOrderInfoError)
  | other (msg : String)
deriving DecidableEq, Repr

/-- `OrderEventConsumer._processSingleMessageWork`
(src/consumers/OrderEventConsumer.ts, lines 262-285): whether the worker
invokes `ackMessage` for a message, as a function of the parse result and of
the outcome of the engine call (`none` = returned normally).  Parse failure:
ack to discard.  Normal return: ack.  `CriticalOrderInfoError`: deliberately
no ack.  Any other exception: ack anyway after logging. -/
def workerAcks (parsed : Option StreamMessage) (engineThrown : Option EngineError) : Bool :=
  match parsed with
  | none => true
  | some _ =>
    match engineThrown with
    | none => true
    | some (.critical _) => false
    | some (.other _) => true

/-- `OrderEventConsumer.ackMessage` (src/consumers/OrderEventConsumer.ts,
lines 425-440): the guard that skips the `xack` command for an empty or
`0-0` message id. -/
def ackMessageSendsXack (messageId : String) : Bool :=
  !(messageId = "" || messageId = "0-0")

/-- Whether processing one message ends with an `xack` issued to Redis:
the worker decided to ack and the id passed `ackMessage`'s guard. -/
def workerXack (messageId : String) (parsed : Option StreamMessage)
    (engineThrown : Option EngineError) : Bool :=
  workerAcks parsed engineThrown && ackMessageSendsXack messageId

/-- Outcome of `RedisService.get` as seen by the health checker: a value, an
absent key, or a thrown Redis error. -/
inductive RedisGet where
  | ok (value : Option String)
  | err
deriving DecidableEq, Repr

/-- Initial value of the module-level `currentHealthStatus` variable
(src/services/OrderServiceHealthChecker.ts, line 154: `= false`). -/
def currentHealthStatusInit : Bool := false

/-- `OrderServiceHealthChecker.isOrderServiceHealthy`
(src/services/OrderServiceHealthChecker.ts, lines 279-306): disabled health
checking short-circuits to healthy; otherwise the Redis flag decides, with
the locally cached `currentHealthStatus` as the fallback for an absent or
unrecognized value and `false` for a Redis read failure. -/
def isOrderServiceHealthy (healthCheckEnabled : Bool) (currentHealthStatus : Bool)
    (flag : RedisGet) : Bool :=
  if !healthCheckEnabled then true
  else
    match flag with
    | .err => false
    | .ok none => currentHealthStatus
    | .ok (some s) =>
      if s = "1" then true
      else if s = "0" then false
      else currentHealthStatus

/-- Outcome of reading and JSON-parsing the shared cache entry
`shared_cache:order_info:{storeCode}:{orderId}`: key absent, a Redis error
or a `JSON.parse` failure (both caught by the same `catch`, falling through
to the API), or a parsed snapshot. -/
inductive CacheRead where
  | absent
  | unreadable
  | value (info : OrderInfo)
deriving DecidableEq, Repr

/-- Outcome of one `_fetchOrderInfoFromApiOnce` call
(src/services/OrderService.ts, lines 115-228): HTTP 200 with a well-formed
body carrying an order id returns the snapshot; 404, another non-500 client
status, or a 200 body without an order id returns `null`; a 5xx status, a
network error or a timeout throws (the `code` tags the concrete error). -/
inductive ApiAttempt where
  | success (info : OrderInfo)
  | nullResult
  | raise (code : Nat)
deriving DecidableEq, Repr

/-- Observable external actions of one `getOrderInfo` call: the shared-cache
read and each API attempt, in order. -/
inductive ResolveStep where
  | cacheRead
  | apiCall (attempt : Nat)
deriving DecidableEq, Repr

/-- Environment of one `OrderService.getOrderInfo` call: the relevant
configuration values, the health gate's answer, the shared-cache content,
the outcome of the k-th API attempt (1-based), and the wall clock at the
k-th staleness check (k = 0 is the initial check, k ≥ 1 the re-check before
attempt k). -/
structure ResolveEnv where
  maxNotificationAgeMs : Nat
  quickRetryAttempts : Nat
  healthCheckEnabled : Bool
  healthy : Bool
  cache : CacheRead
  api : Nat → ApiAttempt
  nowAt : Nat → Int

/-- The staleness test
`originalEventTimestamp && Date.now() - originalEventTimestamp > config.ORDER_SERVICE_MAX_NOTIFICATION_AGE_MS`:
an absent timestamp and the falsy timestamp `0` skip the check. -/
def staleAt (env : ResolveEnv) (ts : Option Int) (k : Nat) : Bool :=
  match ts with
  | none => false
  | some t => t != 0 && env.nowAt k - t > (env.maxNotificationAgeMs : Int)

/-- The cache-hit test of `getOrderInfo` step 2
(src/services/OrderService.ts, lines 254-288): a parsed snapshot counts only
if its `order_id` is truthy and its embedded `store_code` equals the
requested one; everything else (absent key, unreadable entry, mismatched or
id-less snapshot) is logged and ignored. -/
def cacheHit (cache : CacheRead) (storeCode : String) : Option OrderInfo :=
  match cache with
  | .value info =>
    if info.order_id != "" && info.store_code == storeCode then some info else none
  | _ => none

/-- The quick-retry loop of `getOrderInfo` step 4
(src/services/OrderService.ts, lines 305-386).  `k` is the current value of
`attemptsMade`, `remaining` the number of loop iterations left
(`quickRetryAttempts - k + 1` at entry), `lastError` the `lastError`
variable.  Each iteration re-checks staleness (throwing with `attemptsMade - 1`),
then calls the API.  A `null` result makes the code throw a
`CriticalOrderInfoError` inside its own `try`, which the loop's `catch`
immediately captures into `lastError`, exactly like a thrown network error;
in both cases the last attempt rethrows a fresh `CriticalOrderInfoError`
carrying `attemptsMade` and `lastError`, and an earlier attempt continues
after the fixed delay (not modelled).  The `remaining = 0` branch is the
defensive throw after the loop. -/
def quickRetryLoop (attempts : Nat) (api : Nat → ApiAttempt) (isStale : Nat → Bool)
    (k remaining : Nat) (lastError : Option ErrorCause) (trace : List ResolveStep) :
    Except CriticalOrderInfoError OrderInfo × List ResolveStep :=
  match remaining with
  | 0 => (.error ⟨k, lastError, .loopFallthrough⟩, trace)
  | r + 1 =>
    if isStale k then
      (.error ⟨k - 1, lastError, .staleRetry⟩, trace)
    else
      let trace := trace ++ [ResolveStep.apiCall k]
      match api k with
      | .success info => (.ok info, trace)
      | .nullResult =>
        let caught := some (ErrorCause.nullCritical k)
        if k = attempts then
          (.error ⟨k, caught, .allAttemptsFailed⟩, trace)
        else
          quickRetryLoop attempts api isStale (k + 1) r caught trace
      | .raise c =>
        let caught := some (ErrorCause.apiRaise c)
        if k = attempts then
          (.error ⟨k, caught, .allAttemptsFailed⟩, trace)
        else
          quickRetryLoop attempts api isStale (k + 1) r caught trace

/-- `OrderService.getOrderInfo` (src/services/OrderService.ts, lines
230-387): (1) initial staleness check, throwing with `attemptsMade = 0`
before any cache or API access; (2) shared-cache lookup, returning a valid
matching snapshot and ignoring anything else; (3) health-gate check when
enabled, throwing with `attemptsMade = 0` before any API attempt; (4) the
bounded quick-retry loop against the API.  The second component is the
trace of external actions performed. -/
def getOrderInfo (env : ResolveEnv) (storeCode : String) (ts : Option Int) :
    Except CriticalOrderInfoError OrderInfo × List ResolveStep :=
  if staleAt env ts 0 then
    (.error ⟨0, none, .staleInitial⟩, [])
  else
    match cacheHit env.cache storeCode with
    | some info => (.ok info, [ResolveStep.cacheRead])
    | none =>
      if env.healthCheckEnabled && !env.healthy then
        (.error ⟨0, none, .unhealthy⟩, [ResolveStep.cacheRead])
      else
        quickRetryLoop env.quickRetryAttempts env.api (staleAt env ts)
          1 env.quickRetryAttempts none [ResolveStep.cacheRead]

/-- Number of API attempts recorded in a trace. -/
def apiCallCount (trace : List ResolveStep) : Nat :=
  (trace.filter fun s => match s with | .apiCall _ => true | _ => false).length

/-- A per-merchant channel configuration (`NotificationChannelConfig` in
`src/types/index.ts`); `configPayload` stands for the opaque
`channel_config` map. -/
structure NotificationChannelConfig where
  id : Nat
  store_code : String
  order_type : OrderType
  channel_type : ChannelType
  enabled : Bool
  configPayload : Nat
deriving DecidableEq, Repr

/-- `getNotificationStrategy` (src/strategies/StrategyFactory.ts): the
switch registers exactly the `wecom_bot` and `wechat_mp` strategies and
returns `null` for every other channel type. -/
def strategyRegistered (c : ChannelType) : Bool :=
  match c with
  | .wecomBot => true
  | .wechatMp => true
  | _ => false

/-- Outcome of one `strategy.send(payload)` call: a thrown exception, or a
returned `{success, error, ...}` result object. -/
inductive SendOutcome where
  | raise (msg : String)
  | result (success : Bool) (error : Option String)
deriving DecidableEq, Repr

/-- One audit record written through `NotificationLogService.logAttempt`
(`logAttempt` itself catches all database errors and never throws).  Only
the fields the claims inspect are kept; the order id, event type and
payload snapshots are constant per run and not modelled. -/
structure AuditRecord where
  channel_type : ChannelType
  status : NotificationStatus
  error_message : Option String
  retry_count : Nat
deriving DecidableEq, Repr

/-- Models `error.message || '...'` on a caught strategy exception: an empty
message falls back to the fixed text. -/
def strategyErrorMessage (m : String) : String :=
  if m = "" then "Unhandled exception in strategy" else m

/-- The per-channel fan-out loop of `processNotificationEvent`
(src/services/NotificationEngine.ts, lines 289-380), one configuration at a
time: a disabled configuration is skipped silently; a channel type with no
registered strategy logs a `skipped` record and continues; otherwise the
strategy is invoked and a `success`/`failed` record logged; an exception
thrown by `strategy.send` is caught, logged as `failed`, and the loop
continues with the next configuration. -/
def processChannels (send : NotificationChannelConfig → SendOutcome) :
    List NotificationChannelConfig → List AuditRecord
  | [] => []
  | cfg :: rest =>
    if !cfg.enabled then processChannels send rest
    else if !strategyRegistered cfg.channel_type then
      { channel_type := cfg.channel_type, status := .skipped,
        error_message := some "no strategy for channel type", retry_count := 0 }
        :: processChannels send rest
    else
      (match send cfg with
       | .raise m =>
         { channel_type := cfg.channel_type, status := .failed,
           error_message := some (strategyErrorMessage m), retry_count := 0 }
       | .result ok err =>
         { channel_type := cfg.channel_type,
           status := if ok then .success else .failed,
           error_message := err, retry_count := 0 })
        :: processChannels send rest

/-- Models `storeCode.trim() === ''`: the trimmed string is empty exactly
when every character is whitespace. -/
def isBlankString (s : String) : Bool :=
  s.data.all fun c => c.isWhitespace

/-- What the `await OrderService.getOrderInfo(...)` call inside the engine
can do: return a snapshot, throw a `CriticalOrderInfoError`, or throw any
other unexpected error. -/
inductive ResolverOutcome where
  | ok (info : OrderInfo)
  | critical (e : CriticalOrderInfoError)
  | unknown (msg : String)
deriving DecidableEq, Repr

/-- Result of one engine call: the audit records written (in order) and the
exception that escaped, if any (`none` = returned normally). -/
structure EngineRun where
  records : List AuditRecord
  thrown : Option EngineError
deriving DecidableEq, Repr

/-- `NotificationEngine.processNotificationEvent`
(src/services/NotificationEngine.ts, lines 185-382): (0) an empty or
all-whitespace `storeCode` logs a `failed` config-issue record and returns
normally; (1) the resolver call is wrapped in `try/catch`: a failure logs a
`failed` record with `retry_count = attemptsMade`, then a
`CriticalOrderInfoError` is rethrown unchanged and any other error is
wrapped into a fresh `CriticalOrderInfoError` (attempts 0, carrying the
cause) before being thrown; (2) `ConfigService.getStoreChannelConfigs`
catches all its errors internally and returns a list — zero configurations
log one `skipped` record and return normally; (3) the per-channel loop
(`processChannels`) runs and the engine returns normally. -/
def processNotificationEvent (msg : StreamMessage) (resolver : ResolverOutcome)
    (channelConfigs : List NotificationChannelConfig)
    (send : NotificationChannelConfig → SendOutcome) : EngineRun :=
  if msg.storeCode = "" || isBlankString msg.storeCode then
    { records := [{ channel_type := .noConfig, status := .failed,
                    error_message := some "invalid storeCode in stream message",
                    retry_count := 0 }],
      thrown := none }
  else
    match resolver with
    | .critical e =>
      { records := [{ channel_type := .noConfig, status := .failed,
                      error_message := some "failed to get order info",
                      retry_count := e.attemptsMade }],
        thrown := some (.critical e) }
    | .unknown m =>
      { records := [{ channel_type := .noConfig, status := .failed,
                      error_message := some "failed to get order info",
                      retry_count := 0 }],
        thrown := some (.critical ⟨0, some (.unknownError m), .wrappedUnknown⟩) }
    | .ok _ =>
      if channelConfigs.isEmpty then
        { records := [{ channel_type := .noConfig, status := .skipped,
                        error_message := some "no enabled notification channels",
                        retry_count := 0 }],
          thrown := none }
      else
        { records := processChannels send channelConfigs, thrown := none }

/-- Sample order snapshot for store `S1`, used by concrete instantiations. -/
def sampleInfo : OrderInfo :=
  { order_id := "1", store_code := "S1", order_type := .pickup, payload := 7 }

/-- Sample parsed message used by concrete instantiations. -/
def sampleMessage : StreamMessage :=
  { orderId := "1", token := none, event := .orderCreated, storeCode := "S1",
    timestamp := .finite 1 0 }

/-- Sample critical error used by concrete instantiations. -/
def sampleCritical : CriticalOrderInfoError :=
  { attemptsMade := 0, originalError := none, reason := .staleInitial }

/-- Claim C1: for every message handed to the consumer worker, an `xack` is
issued if and only if it is not the case that the message parsed and the
engine threw `CriticalOrderInfoError`: the worker acks on normal return, on
parse failure, and on any other exception, and skips the ack exactly on
`CriticalOrderInfoError` (for a message id accepted by `ackMessage`'s
guard). -/
theorem ack_iff_not_critical (messageId : String) (parsed : Option StreamMessage)
    (thrown : Option EngineError) (h1 : messageId ≠ "") (h2 : messageId ≠ "0-0") :
    workerXack messageId parsed thrown = true ↔
      ¬∃ m e, parsed = some m ∧ thrown = some (.critical e) := by
  have hguard : ackMessageSendsXack messageId = true := by
    simp [ackMessageSendsXack, h1, h2]
  cases parsed with
  | none => simp [workerXack, workerAcks, hguard]
  | some m =>
    cases thrown with
    | none => simp [workerXack, workerAcks, hguard]
    | some e =>
      cases e with
      | critical c =>
        simp only [workerXack, workerAcks, hguard, Bool.false_and,
          Bool.and_true]
        constructor
        · intro hfalse; cases hfalse
        · intro hno; exact absurd ⟨m, c, rfl, rfl⟩ hno
      | other s =>
        simp [workerXack, workerAcks, hguard]

/-- Concrete instantiation of `ack_iff_not_critical`: a parsed message whose
engine call threw `CriticalOrderInfoError` is not acknowledged. -/
theorem ack_iff_not_critical_witness :
    workerXack "1-0" (some sampleMessage) (some (.critical sampleCritical)) = true ↔
      ¬∃ m e, (some sampleMessage : Option StreamMessage) = some m ∧
        (some (EngineError.critical sampleCritical) : Option EngineError) =
          some (.critical e) :=
  ack_iff_not_critical "1-0" (some sampleMessage)
    (some (.critical sampleCritical)) (by decide) (by decide)

/-- Claim C4: with health checking enabled and the gate reporting unhealthy,
a resolve call that passed the staleness check and missed the cache makes
zero API attempts and throws `CriticalOrderInfoError` with
`attemptsMade = 0` (the trace holds only the cache read). -/
theorem unhealthy_zero_attempts (env : ResolveEnv) (storeCode : String)
    (ts : Option Int)
    (h0 : staleAt env ts 0 = false)
    (h1 : cacheHit env.cache storeCode = none)
    (h2 : env.healthCheckEnabled = true)
    (h3 : env.healthy = false) :
    getOrderInfo env storeCode ts =
      (.error ⟨0, none, .unhealthy⟩, [ResolveStep.cacheRead]) := by
  simp [getOrderInfo, h0, h1, h2, h3]

/-- Environment with the gate reporting unhealthy while health checking is
enabled, a fresh event and an empty cache. -/
def unhealthyEnv : ResolveEnv :=
  { maxNotificationAgeMs := 600000, quickRetryAttempts := 2,
    healthCheckEnabled := true, healthy := false, cache := .absent,
    api := fun _ => .success sampleInfo,
    nowAt := fun _ => 1000 }

/-- Concrete instantiation of `unhealthy_zero_attempts`. -/
theorem unhealthy_zero_attempts_witness :
    getOrderInfo unhealthyEnv "S1" (some 1000) =
      (.error ⟨0, none, .unhealthy⟩, [ResolveStep.cacheRead]) :=
  unhealthy_zero_attempts unhealthyEnv "S1" (some 1000) rfl rfl rfl rfl

/-- Environment whose clock is far past the event timestamp. -/
def staleEnv : ResolveEnv :=
  { maxNotificationAgeMs := 600000, quickRetryAttempts := 2,
    healthCheckEnabled := true, healthy := true,
    cache := .value sampleInfo,
    api := fun _ => .success sampleInfo,
    nowAt := fun _ => 10000000 }

/-- Claim C6 counterexample: an event timestamp of exactly 0 that is far
older than the configured maximum age (`now - 0 > maxAge` holds) does NOT
make resolution fail before the cache read — the source guards the
staleness check with the truthiness of `originalEventTimestamp`, `0` is
falsy in JS, so the check is skipped and the call proceeds to the cache
(here even returning the cached snapshot). -/
theorem stale_zero_timestamp_reaches_cache :
    staleEnv.nowAt 0 - (0 : Int) > (staleEnv.maxNotificationAgeMs : Int) ∧
    getOrderInfo staleEnv "S1" (some 0) =
      (.ok sampleInfo, [ResolveStep.cacheRead]) :=
  ⟨by decide, rfl⟩

/-- Claim C6 as amended: a resolve call whose event timestamp is nonzero
(truthy) and older than the configured maximum age fails immediately with
`CriticalOrderInfoError` (`attemptsMade = 0`) and an empty trace: no cache
read and no API call happen. -/
theorem stale_nonzero_event_fails_first (env : ResolveEnv) (storeCode : String)
    (t : Int) (ht : t ≠ 0)
    (hage : env.nowAt 0 - t > (env.maxNotificationAgeMs : Int)) :
    getOrderInfo env storeCode (some t) =
      (.error ⟨0, none, .staleInitial⟩, []) := by
  have hstale : staleAt env (some t) 0 = true := by
    simp only [staleAt, Bool.and_eq_true, bne_iff_ne, ne_eq, decide_eq_true_eq]
    exact ⟨ht, hage⟩
  simp [getOrderInfo, hstale]

/-- Concrete instantiation of `stale_nonzero_event_fails_first`. -/
theorem stale_nonzero_event_fails_first_witness :
    getOrderInfo staleEnv "S1" (some 1000) =
      (.error ⟨0, none, .staleInitial⟩, []) :=
  stale_nonzero_event_fails_first staleEnv "S1" 1000 (by decide) (by decide)

/-- Claim C8: a well-formed cached snapshot whose embedded store code
matches makes the resolve call return it with zero API attempts — and since
the resolver never writes the cache, a second call in the same state returns
the identical snapshot; a cache entry that does not pass the hit test
(malformed, id-less or mismatched) behaves exactly like an absent entry:
resolution proceeds to the API instead of failing. -/
theorem warm_cache_hit (env : ResolveEnv) (storeCode : String) (ts : Option Int)
    (info : OrderInfo)
    (h0 : staleAt env ts 0 = false)
    (h1 : cacheHit env.cache storeCode = some info) :
    getOrderInfo env storeCode ts = (.ok info, [ResolveStep.cacheRead]) ∧
    ∀ bad : CacheRead, cacheHit bad storeCode = none →
      getOrderInfo { env with cache := bad } storeCode ts =
        getOrderInfo { env with cache := CacheRead.absent } storeCode ts := by
  constructor
  · simp [getOrderInfo, h0, h1]
  · intro bad hbad
    have h0b : staleAt { env with cache := bad } ts 0 = false := h0
    have h0a : staleAt { env with cache := CacheRead.absent } ts 0 = false := h0
    have habs : cacheHit CacheRead.absent storeCode = none := rfl
    simp only [getOrderInfo, h0b, h0a, hbad, habs, Bool.false_eq_true, if_false]
    rfl

/-- Environment holding a valid cached snapshot for store `S1`. -/
def warmEnv : ResolveEnv :=
  { maxNotificationAgeMs := 600000, quickRetryAttempts := 2,
    healthCheckEnabled := false, healthy := true,
    cache := .value sampleInfo,
    api := fun _ => .raise 503,
    nowAt := fun _ => 1000 }

/-- Concrete instantiation of `warm_cache_hit`: the warm cache serves the
snapshot with no API attempt. -/
theorem warm_cache_hit_witness :
    getOrderInfo warmEnv "S1" (some 1000) = (.ok sampleInfo, [ResolveStep.cacheRead]) :=
  (warm_cache_hit warmEnv "S1" (some 1000) sampleInfo rfl rfl).1

/-- Claim C9: `isOrderServiceHealthy` returns true whenever health checking
is disabled; with it enabled, the flag value `1` yields true, `0` yields
false, and an absent or unrecognized value yields the locally cached probe
result, whose initial value is `false`. -/
theorem health_flag_semantics :
    (∀ (cached : Bool) (flag : RedisGet),
      isOrderServiceHealthy false cached flag = true) ∧
    (∀ cached : Bool,
      isOrderServiceHealthy true cached (.ok (some "1")) = true) ∧
    (∀ cached : Bool,
      isOrderServiceHealthy true cached (.ok (some "0")) = false) ∧
    (∀ (cached : Bool) (s : String), s ≠ "1" → s ≠ "0" →
      isOrderServiceHealthy true cached (.ok (some s)) = cached) ∧
    (∀ cached : Bool, isOrderServiceHealthy true cached (.ok none) = cached) ∧
    currentHealthStatusInit = false := by
  refine ⟨fun cached flag => rfl, fun cached => rfl, fun cached => rfl,
    ?_, fun cached => rfl, rfl⟩
  intro cached s h1 h0
  have hshape : isOrderServiceHealthy true cached (.ok (some s)) =
      (if s = "1" then true else if s = "0" then false else cached) := rfl
  rw [hshape, if_neg h1, if_neg h0]

/-- Concrete instantiation of `health_flag_semantics`: an unrecognized flag
value falls back to the cached status (here the initial `false`). -/
theorem health_flag_semantics_witness :
    isOrderServiceHealthy true false (.ok (some "x")) = false :=
  health_flag_semantics.2.2.2.1 false "x" (by decide) (by decide)

/-- Claim C10 counterexample: a stream message with no `token` field at all
still parses — `parseMessage` requires only `orderId`, `event`, `storeCode`
and `timestamp`, so the claim's list of five mandatory fields is wrong about
`token`. -/
theorem token_missing_still_parses :
    parseMessage ["orderId", "1", "event", "order_created", "storeCode", "S1",
        "timestamp", "1"] =
      some { orderId := "1", token := none, event := .orderCreated,
             storeCode := "S1", timestamp := .finite 1 0 } := rfl

/-- Claim C10 as amended: if any of the four fields `orderId`, `storeCode`,
`timestamp`, `event` is missing (or falsy, or `timestamp` is not numeric,
or `event` is not a recognized enum value), `parseMessage` returns `null`
and the worker acknowledges the message without calling the engine. -/
theorem parse_requires_core_fields (fields : List String)
    (h : truthyField (lookupLast (fieldPairs fields) "orderId") = none ∨
         truthyField (lookupLast (fieldPairs fields) "storeCode") = none ∨
         numericField (lookupLast (fieldPairs fields) "timestamp") = none ∨
         (lookupLast (fieldPairs fields) "event").bind eventOfString = none) :
    parseMessage fields = none ∧
    ∀ thrown : Option EngineError, workerAcks (parseMessage fields) thrown = true := by
  have hnone : parseMessage fields = none := by
    unfold parseMessage
    by_cases hlen : fields.length % 2 ≠ 0
    · simp [hlen]
    · cases c1 : truthyField (lookupLast (fieldPairs fields) "orderId") with
      | none => simp [hlen, c1]
      | some oid =>
        cases c2 : truthyField (lookupLast (fieldPairs fields) "storeCode") with
        | none => simp [hlen, c1, c2]
        | some sc =>
          cases c3 : numericField (lookupLast (fieldPairs fields) "timestamp") with
          | none => simp [hlen, c1, c2, c3]
          | some tsv =>
            cases c4 : lookupLast (fieldPairs fields) "event" with
            | none => simp [hlen, c1, c2, c3, c4]
            | some ev =>
              rcases h with h | h | h | h
              · rw [c1] at h; cases h
              · rw [c2] at h; cases h
              · rw [c3] at h; cases h
              · rw [c4] at h
                have hev2 : eventOfString ev = none := h
                by_cases hev : ev = ""
                · simp [hlen, c1, c2, c3, c4, hev]
                · simp [hlen, c1, c2, c3, c4, hev, hev2]
  refine ⟨hnone, ?_⟩
  intro thrown
  rw [hnone]
  rfl

/-- Concrete instantiation of `parse_requires_core_fields`: a message
without an `orderId` field is rejected. -/
theorem parse_requires_core_fields_witness :
    parseMessage ["event", "order_created", "storeCode", "S1",
      "timestamp", "1"] = none :=
  (parse_requires_core_fields
    ["event", "order_created", "storeCode", "S1", "timestamp", "1"]
    (Or.inl (by decide))).1

/-- Environment with the shipped default configuration (two quick-retry
attempts, ten-minute maximum age), an empty cache, health checking disabled,
a fresh event, and an order API that answers 404 on every attempt. -/
def notFoundEnv : ResolveEnv :=
  { maxNotificationAgeMs := 600000, quickRetryAttempts := 2,
    healthCheckEnabled := false, healthy := true, cache := .absent,
    api := fun _ => .nullResult, nowAt := fun _ => 1000 }

/-- Claim C5, evaluated at the failing input: with the default
`ORDER_SERVICE_QUICK_RETRY_ATTEMPTS = 2`, an API attempt that returns 404
is NOT escalated immediately.  The `CriticalOrderInfoError` thrown for the
null result sits inside the retry loop's own `try`, so the loop's `catch`
captures it and performs a second API attempt; the error finally thrown is
the generic all-attempts-failed one with `attemptsMade = 2` (carrying the
swallowed first error), not the definitive-failure error with
`attemptsMade = 1` that the claim, the spec's scenario B and the code's own
comment describe. -/
theorem definitive_failure_retried :
    getOrderInfo notFoundEnv "S1" (some 1000) =
      (.error ⟨2, some (.nullCritical 2), .allAttemptsFailed⟩,
       [ResolveStep.cacheRead, ResolveStep.apiCall 1, ResolveStep.apiCall 2]) := rfl

/-- When every attempt of the quick-retry loop raises a retryable error, the
loop performs all remaining attempts in order and finally throws the
all-attempts-failed `CriticalOrderInfoError` carrying the full attempt count
and the last attempt's error. -/
theorem quickRetryLoop_all_raise (attempts : Nat) (api : Nat → ApiAttempt)
    (isStale : Nat → Bool) (code : Nat → Nat)
    (hstale : ∀ j, isStale j = false)
    (hapi : ∀ j, 1 ≤ j → j ≤ attempts → api j = .raise (code j)) :
    ∀ (remaining k : Nat) (lastError : Option ErrorCause) (trace : List ResolveStep),
      1 ≤ k → k ≤ attempts → k + remaining = attempts + 1 →
      quickRetryLoop attempts api isStale k remaining lastError trace =
        (.error ⟨attempts, some (.apiRaise (code attempts)), .allAttemptsFailed⟩,
         trace ++ (List.range remaining).map fun i => ResolveStep.apiCall (k + i)) := by
  intro remaining
  induction remaining with
  | zero => intro k lastError trace hk1 hk2 hsum; omega
  | succ r ih =>
    intro k lastError trace hk1 hk2 hsum
    have hs := hstale k
    have ha := hapi k hk1 hk2
    by_cases hke : k = attempts
    · have hr : r = 0 := by omega
      subst hr
      subst hke
      simp [quickRetryLoop, hs, ha]
      rfl
    · have hstep : quickRetryLoop attempts api isStale k (r + 1) lastError trace =
          quickRetryLoop attempts api isStale (k + 1) r
            (some (.apiRaise (code k))) (trace ++ [ResolveStep.apiCall k]) := by
        simp [quickRetryLoop, hs, ha, hke]
      rw [hstep, ih (k + 1) _ _ (by omega) (by omega) (by omega)]
      have hrange : (List.range (r + 1)).map (fun i => ResolveStep.apiCall (k + i)) =
          ResolveStep.apiCall (k + 0) ::
            (List.range r).map fun i => ResolveStep.apiCall (k + Nat.succ i) := by
        rw [List.range_succ_eq_map, List.map_cons, List.map_map]
        rfl
      have hmap : (List.range r).map (fun i => ResolveStep.apiCall (k + 1 + i)) =
          (List.range r).map fun i => ResolveStep.apiCall (k + Nat.succ i) := by
        apply List.map_congr_left
        intro i _
        have : k + 1 + i = k + Nat.succ i := by omega
        rw [this]
      rw [hrange, hmap, List.append_assoc]
      rfl

/-- Number of API calls in the canonical attempt trace. -/
theorem apiCallCount_range_calls (n a : Nat) :
    apiCallCount ((List.range n).map fun i => ResolveStep.apiCall (a + i)) = n := by
  induction n with
  | zero => rfl
  | succ m ih =>
    rw [List.range_succ, List.map_append]
    simp only [apiCallCount, List.filter_append, List.length_append] at ih ⊢
    rw [ih]
    rfl

/-- Claim C2: with health checking disabled, a fresh event, a cache miss and
an API whose every attempt fails with a retryable error (5xx / network /
timeout), the resolver performs exactly `quickRetryAttempts` API attempts
(attempts 1 through N, in order, after the single cache read) and throws
`CriticalOrderInfoError` with `attemptsMade = quickRetryAttempts`, carrying
the last attempt's underlying error.  The fixed inter-attempt delay is
real-time behavior and is not modelled. -/
theorem quick_retry_exhaustion (env : ResolveEnv) (storeCode : String)
    (ts : Option Int) (code : Nat → Nat)
    (hstale : ∀ j, staleAt env ts j = false)
    (hmiss : cacheHit env.cache storeCode = none)
    (hhc : env.healthCheckEnabled = false)
    (hn : 1 ≤ env.quickRetryAttempts)
    (hapi : ∀ j, 1 ≤ j → j ≤ env.quickRetryAttempts → env.api j = .raise (code j)) :
    getOrderInfo env storeCode ts =
      (.error ⟨env.quickRetryAttempts,
               some (.apiRaise (code env.quickRetryAttempts)), .allAttemptsFailed⟩,
       ResolveStep.cacheRead ::
         (List.range env.quickRetryAttempts).map fun i => ResolveStep.apiCall (1 + i)) ∧
    apiCallCount (getOrderInfo env storeCode ts).2 = env.quickRetryAttempts := by
  have hmain : getOrderInfo env storeCode ts =
      quickRetryLoop env.quickRetryAttempts env.api (staleAt env ts)
        1 env.quickRetryAttempts none [ResolveStep.cacheRead] := by
    simp [getOrderInfo, hstale 0, hmiss, hhc]
  rw [hmain, quickRetryLoop_all_raise env.quickRetryAttempts env.api (staleAt env ts)
    code hstale hapi env.quickRetryAttempts 1 none [ResolveStep.cacheRead]
    le_rfl hn (by omega)]
  refine ⟨rfl, ?_⟩
  show apiCallCount (ResolveStep.cacheRead ::
    (List.range env.quickRetryAttempts).map fun i => ResolveStep.apiCall (1 + i)) =
      env.quickRetryAttempts
  have hcons : apiCallCount (ResolveStep.cacheRead ::
      (List.range env.quickRetryAttempts).map fun i => ResolveStep.apiCall (1 + i)) =
      apiCallCount ((List.range env.quickRetryAttempts).map
        fun i => ResolveStep.apiCall (1 + i)) := rfl
  rw [hcons, apiCallCount_range_calls]

/-- Environment with an empty cache, health checking disabled, a fresh
event, and an order API that raises 503 on every attempt. -/
def retryFailEnv : ResolveEnv :=
  { maxNotificationAgeMs := 600000, quickRetryAttempts := 2,
    healthCheckEnabled := false, healthy := true, cache := .absent,
    api := fun _ => .raise 503, nowAt := fun _ => 1000 }

/-- Concrete instantiation of `quick_retry_exhaustion`: two retryable
failures produce `attemptsMade = 2` carrying the last 503. -/
theorem quick_retry_exhaustion_witness :
    getOrderInfo retryFailEnv "S1" (some 1000) =
      (.error ⟨2, some (.apiRaise 503), .allAttemptsFailed⟩,
       ResolveStep.cacheRead ::
         (List.range 2).map fun i => ResolveStep.apiCall (1 + i)) :=
  (quick_retry_exhaustion retryFailEnv "S1" (some 1000) (fun _ => 503)
    (fun _ => rfl) rfl rfl (by decide) (fun _ _ _ => rfl)).1

/-- Claim C7: an exception thrown by one channel's `strategy.send` is caught
inside the fan-out loop and logged as a `failed` record for that channel;
the records of every configuration before and after it are exactly the
records those configurations produce on their own, so the remaining
strategies are still invoked and their outcomes are unaffected. -/
theorem strategy_exception_isolated (send : NotificationChannelConfig → SendOutcome)
    (pre post : List NotificationChannelConfig) (cfg : NotificationChannelConfig)
    (m : String)
    (he : cfg.enabled = true)
    (hs : strategyRegistered cfg.channel_type = true)
    (ht : send cfg = .raise m) :
    processChannels send (pre ++ cfg :: post) =
      processChannels send pre ++
        ({ channel_type := cfg.channel_type, status := .failed,
           error_message := some (strategyErrorMessage m), retry_count := 0 }
          :: processChannels send post) := by
  induction pre with
  | nil => simp [processChannels, he, hs, ht]
  | cons c rest ih =>
    by_cases hc : c.enabled = true
    · by_cases hr : strategyRegistered c.channel_type = true
      · cases hsend : send c <;> simp [processChannels, hc, hr, hsend, ih]
      · simp [processChannels, hc, hr, ih]
    · simp [processChannels, hc, ih]

/-- Enabled `wecom_bot` configuration for store `S1`. -/
def cfgWecom : NotificationChannelConfig :=
  { id := 1, store_code := "S1", order_type := .pickup,
    channel_type := .wecomBot, enabled := true, configPayload := 0 }

/-- Enabled `wechat_mp` configuration for store `S1`. -/
def cfgWechat : NotificationChannelConfig :=
  { id := 2, store_code := "S1", order_type := .pickup,
    channel_type := .wechatMp, enabled := true, configPayload := 0 }

/-- Strategy behavior where the `wecom_bot` send throws and every other
channel's send succeeds. -/
def sendBoom : NotificationChannelConfig → SendOutcome :=
  fun c => if c.channel_type = .wecomBot then .raise "boom" else .result true none

/-- Concrete instantiation of `strategy_exception_isolated`: with two
enabled configurations where the first strategy throws, the second
configuration's record is exactly its stand-alone record. -/
theorem strategy_exception_isolated_witness :
    processChannels sendBoom [cfgWecom, cfgWechat] =
      processChannels sendBoom [] ++
        ({ channel_type := ChannelType.wecomBot, status := .failed,
           error_message := some (strategyErrorMessage "boom"), retry_count := 0 }
          :: processChannels sendBoom [cfgWechat]) :=
  strategy_exception_isolated sendBoom [] [cfgWechat] cfgWecom "boom" rfl rfl rfl

/-- Claim C3: every exception escaping `processNotificationEvent` is a
`CriticalOrderInfoError`.  Strategy exceptions are caught by the per-channel
loop, `getStoreChannelConfigs` and `logAttempt` catch their own errors and
never throw (reflected in the embedding by their total types), and a
non-critical error thrown by the resolver is wrapped into a fresh
`CriticalOrderInfoError` before being rethrown. -/
theorem engine_throws_only_critical (msg : StreamMessage)
    (resolver : ResolverOutcome) (cfgs : List NotificationChannelConfig)
    (send : NotificationChannelConfig → SendOutcome) :
    ∀ e, (processNotificationEvent msg resolver cfgs send).thrown = some e →
      ∃ c, e = .critical c := by
  intro e he
  unfold processNotificationEvent at he
  by_cases h0 : (msg.storeCode = "" || isBlankString msg.storeCode) = true
  · rw [if_pos h0] at he
    exact Option.noConfusion he
  · rw [if_neg h0] at he
    cases resolver with
    | ok info =>
      by_cases hc : cfgs.isEmpty = true
      · rw [if_pos hc] at he
        exact Option.noConfusion he
      · rw [if_neg hc] at he
        exact Option.noConfusion he
    | critical c =>
      exact ⟨c, (Option.some_injective _ he).symm⟩
    | unknown m =>
      exact ⟨_, (Option.some_injective _ he).symm⟩

/-- Concrete instantiation of `engine_throws_only_critical`: a resolver
failure surfaces as a critical error. -/
theorem engine_throws_only_critical_witness :
    ∃ c, EngineError.critical sampleCritical = EngineError.critical c :=
  engine_throws_only_critical sampleMessage (.critical sampleCritical) []
    (fun _ => .result true none) (.critical sampleCritical) rfl

end NotificationService
